import Mathlib

/-!
Shallow embedding of the claude-hippocampus memory engine (Rust + Postgres).

The database is modelled as a `List Memory`; each SQL statement of
`src/db/queries.rs` becomes a pure function over that list, and each command
of `src/commands/*.rs` becomes a function threading the store.  Rust `String`
is modelled as `List Char` (`RStr`); the byte-level operations of
`Memory::to_summary` (`content.len()`, `&content[..97]`) are modelled through
UTF-8 byte sizes, with `Option` capturing the panic of slicing at a byte
index that is not a character boundary.  Timestamps are integers counted in
days; `NOW()` is passed in as an explicit `now` argument.
-/

namespace Hippocampus

/-- Models `MemoryType` of `src/models/memory.rs` (six closed variants). -/
inductive MemoryType where
  | convention | architecture | gotcha | api | learning | preference
deriving DecidableEq, Repr

/-- Models `MemoryType::as_str` of `src/models/memory.rs`. -/
def MemoryType.asStr : MemoryType → List Char
  | .convention => "convention".toList
  | .architecture => "architecture".toList
  | .gotcha => "gotcha".toList
  | .api => "api".toList
  | .learning => "learning".toList
  | .preference => "preference".toList

/-- Models `Confidence` of `src/models/memory.rs`. -/
inductive Confidence where
  | high | medium | low
deriving DecidableEq, Repr

/-- Models `Confidence::sort_order` (high=0, medium=1, low=2). -/
def Confidence.sortOrder : Confidence → Nat
  | .high => 0
  | .medium => 1
  | .low => 2

/-- Models `Confidence::symbol` (high=★, medium=◐, low=○). -/
def Confidence.symbol : Confidence → List Char
  | .high => ['★']
  | .medium => ['◐']
  | .low => ['○']

/-- Models `Scope` of `src/models/memory.rs`. -/
inductive Scope where
  | project | global
deriving DecidableEq, Repr

/-- Models `Tier` of `src/models/memory.rs` (read-side selector, adds `both`). -/
inductive Tier where
  | project | global | both
deriving DecidableEq, Repr

/-- Rust strings are modelled as lists of unicode scalar values. -/
abbrev RStr := List Char

/-- Models the `memories` row / the `Memory` struct of `src/models/memory.rs`.
Ids are modelled as naturals (standing in for UUIDs with their SQL order);
timestamps as integers in days. -/
structure Memory where
  id : Nat
  memoryType : MemoryType
  scope : Scope
  projectPath : Option RStr
  content : RStr
  tags : List RStr
  confidence : Confidence
  sourceSessionId : Option Nat
  sourceTurnId : Option Nat
  createdAt : Int
  updatedAt : Int
  accessedAt : Option Int
  accessCount : Nat
deriving DecidableEq, Repr

/-- Per-character lowercasing, modelling Rust `to_lowercase` / SQL `LOWER`. -/
def lowerChar (c : Char) : Char := c.toLower

/-- Lowercase a whole string. -/
def lowerStr (s : RStr) : RStr := s.map lowerChar

/-- The lowercased first-100-character slice of a content string.  Models both
the Rust side (`content.chars().take(100)` then `to_lowercase`) and the SQL
side (`LOWER(SUBSTRING(content, 1, 100))`) of `find_duplicate` and
`consolidate_duplicates` in `src/db/queries.rs`. -/
def lowerPfx100 (s : RStr) : RStr := (s.take 100).map lowerChar

/-- UTF-8 byte length, modelling Rust `String::len`. -/
def byteLen (s : RStr) : Nat := (s.map Char.utf8Size).sum

/-- Models the Rust byte slice `&s[..n]`: returns the characters occupying the
first `n` bytes, or `none` (panic) when `n` is not a character boundary. -/
def byteTake : Nat → RStr → Option RStr
  | 0, _ => some []
  | _ + 1, [] => none
  | n + 1, c :: cs =>
    if c.utf8Size ≤ n + 1 then (byteTake (n + 1 - c.utf8Size) cs).map (c :: ·)
    else none

/-- Models the summary computation of `Memory::to_summary` in
`src/models/memory.rs`: `if content.len() > 100 { first 97 bytes + "..." }
else { content }`.  `none` models the panic of `&content[..97]` when byte 97
is not a character boundary. -/
def to_summary (content : RStr) : Option RStr :=
  if byteLen content > 100 then (byteTake 97 content).map (· ++ "...".toList)
  else some content

/-- Models the identical summary computation inside `find_duplicate` in
`src/db/queries.rs` (lines 38-42). -/
def dup_summary (content : RStr) : Option RStr :=
  if byteLen content > 100 then (byteTake 97 content).map (· ++ "...".toList)
  else some content

/-- Models the identical summary computation of `From<Memory> for
MemorySearchItem` in `src/commands/search.rs` (lines 87-91). -/
def search_item_summary (content : RStr) : Option RStr :=
  if byteLen content > 100 then (byteTake 97 content).map (· ++ "...".toList)
  else some content

/-- Models SQL equality between a stored nullable column and a bound nullable
parameter: `a = b` is true only when both are non-NULL and equal (a NULL on
either side makes the comparison fail). -/
def sqlEqOpt (a b : Option RStr) : Bool :=
  match a, b with
  | some x, some y => decide (x = y)
  | _, _ => false

/-- Substring test: does `needle` occur contiguously inside `hay`?  Models the
SQL pattern match `col ILIKE '%q%'` after both sides are lowercased. -/
def startsWithL : RStr → RStr → Bool
  | [], _ => true
  | _ :: _, [] => false
  | n :: ns, h :: hs => decide (n = h) && startsWithL ns hs

/-- Occurrence of `needle` at any position of `hay`. -/
def containsSub (needle hay : RStr) : Bool :=
  match hay with
  | [] => startsWithL needle []
  | _ :: hs => startsWithL needle hay || containsSub needle hs

namespace Db

/-- Models `DuplicateInfo` of `src/db/queries.rs`. -/
structure DuplicateInfo where
  id : Nat
  scope : Scope
  summary : RStr
deriving DecidableEq, Repr

/-- Models `find_duplicate` of `src/db/queries.rs`: select the first memory of
the same type whose lowercased 100-character content slice equals the
candidate's; derive its summary (outer `none` models a panic inside the
summary derivation). -/
def find_duplicate (store : List Memory) (t : MemoryType) (content : RStr) :
    Option (Option DuplicateInfo) :=
  match store.find? (fun m =>
      decide (m.memoryType = t) && decide (lowerPfx100 m.content = lowerPfx100 content)) with
  | none => some none
  | some m => (dup_summary m.content).map (fun s => some ⟨m.id, m.scope, s⟩)

/-- Models `insert_memory` of `src/db/queries.rs` plus the schema defaults of
the columns the INSERT omits (`created_at`/`updated_at` default to NOW(),
`accessed_at` to NULL, `access_count` to 0); `newId` stands for the
database-generated id. -/
def insert_memory (store : List Memory) (newId : Nat) (now : Int)
    (t : MemoryType) (scope : Scope) (projectPath : Option RStr) (content : RStr)
    (tags : List RStr) (confidence : Confidence)
    (sourceSessionId sourceTurnId : Option Nat) : List Memory :=
  store ++ [{ id := newId, memoryType := t, scope := scope,
              projectPath := projectPath, content := content, tags := tags,
              confidence := confidence, sourceSessionId := sourceSessionId,
              sourceTurnId := sourceTurnId, createdAt := now, updatedAt := now,
              accessedAt := none, accessCount := 0 }]

/-- Models `update_memory` of `src/db/queries.rs`: with a scope, SET content,
scope, project_path and updated_at on the row with the given id; without a
scope, SET content and updated_at only.  The Bool is `rows_affected() > 0`. -/
def update_memory (store : List Memory) (id : Nat) (content : RStr)
    (scope : Option Scope) (projectPath : Option RStr) (now : Int) :
    List Memory × Bool :=
  match scope with
  | some s =>
    (store.map (fun m =>
      if m.id = id then
        { m with content := content, scope := s, projectPath := projectPath,
                 updatedAt := now }
      else m),
     store.any (fun m => decide (m.id = id)))
  | none =>
    (store.map (fun m =>
      if m.id = id then { m with content := content, updatedAt := now } else m),
     store.any (fun m => decide (m.id = id)))

/-- Models `delete_memory` of `src/db/queries.rs`. -/
def delete_memory (store : List Memory) (id : Nat) : List Memory × Bool :=
  (store.filter (fun m => decide (m.id ≠ id)), store.any (fun m => decide (m.id = id)))

/-- Models `get_memory` of `src/db/queries.rs`. -/
def get_memory (store : List Memory) (id : Nat) : Option Memory :=
  store.find? (fun m => decide (m.id = id))

/-- Models the keyword predicate shared by the search queries of
`src/db/queries.rs`: `content ILIKE '%q%' OR EXISTS (... t ILIKE '%q%')`. -/
def kwPred (q : RStr) (m : Memory) : Bool :=
  containsSub (lowerStr q) (lowerStr m.content) ||
    m.tags.any (fun t => containsSub (lowerStr q) (lowerStr t))

/-- Models the both-scopes WHERE fragment
`scope = 'global' OR (scope = 'project' AND project_path = $path)`. -/
def scopePredBoth (path : Option RStr) (m : Memory) : Bool :=
  decide (m.scope = .global) || (decide (m.scope = .project) && sqlEqOpt m.projectPath path)

/-- Models the ORDER BY key of the search queries: confidence rank ascending
(CASE high→0, medium→1, low→2), then `created_at` descending. -/
def searchLe (a b : Memory) : Bool :=
  decide (a.confidence.sortOrder < b.confidence.sortOrder ∨
    (a.confidence.sortOrder = b.confidence.sortOrder ∧ b.createdAt ≤ a.createdAt))

/-- Models `search_keyword` of `src/db/queries.rs`: one branch per scope mode,
each filtering, ordering by `searchLe` and capping at `limit`. -/
def search_keyword (store : List Memory) (q : RStr) (scopeFilter : Option Scope)
    (projectPath : Option RStr) (includeBothScopes : Bool) (limit : Nat) :
    List Memory :=
  let pred : Memory → Bool :=
    if includeBothScopes then
      fun m => scopePredBoth projectPath m && kwPred q m
    else
      match scopeFilter with
      | some .project => fun m =>
          decide (m.scope = .project) && sqlEqOpt m.projectPath projectPath && kwPred q m
      | some .global => fun m => decide (m.scope = .global) && kwPred q m
      | none => fun m => kwPred q m
  (((store.filter pred).mergeSort searchLe).take limit)

/-- Models `search_by_type` of `src/db/queries.rs`: the eight hard-coded
branches over (include_both_scopes, scope_filter, keyword-presence), each
adding `type = $1` to the WHERE clause, ordered and capped as in
`search_keyword`. -/
def search_by_type (store : List Memory) (t : MemoryType) (q : Option RStr)
    (scopeFilter : Option Scope) (projectPath : Option RStr)
    (includeBothScopes : Bool) (limit : Nat) : List Memory :=
  let pred : Memory → Bool :=
    match includeBothScopes, scopeFilter, q with
    | true, _, some pat => fun m =>
        decide (m.memoryType = t) && scopePredBoth projectPath m && kwPred pat m
    | true, _, none => fun m =>
        decide (m.memoryType = t) && scopePredBoth projectPath m
    | false, some .project, some pat => fun m =>
        decide (m.memoryType = t) && decide (m.scope = .project) &&
          sqlEqOpt m.projectPath projectPath && kwPred pat m
    | false, some .project, none => fun m =>
        decide (m.memoryType = t) && decide (m.scope = .project) &&
          sqlEqOpt m.projectPath projectPath
    | false, some .global, some pat => fun m =>
        decide (m.memoryType = t) && decide (m.scope = .global) && kwPred pat m
    | false, some .global, none => fun m =>
        decide (m.memoryType = t) && decide (m.scope = .global)
    | false, none, some pat => fun m =>
        decide (m.memoryType = t) && kwPred pat m
    | false, none, none => fun m => decide (m.memoryType = t)
  (((store.filter pred).mergeSort searchLe).take limit)

/-- Models the ORDER BY key of `get_context_memories`: confidence rank, then
`access_count` descending, then `created_at` descending. -/
def contextLe (a b : Memory) : Bool :=
  decide (a.confidence.sortOrder < b.confidence.sortOrder ∨
    (a.confidence.sortOrder = b.confidence.sortOrder ∧
      (b.accessCount < a.accessCount ∨
        (a.accessCount = b.accessCount ∧ b.createdAt ≤ a.createdAt))))

/-- Models `get_context_memories` of `src/db/queries.rs`. -/
def get_context_memories (store : List Memory) (projectPath : Option RStr)
    (limit : Nat) : List Memory :=
  (((store.filter (scopePredBoth projectPath)).mergeSort contextLe).take limit)

/-- Models `mark_memories_accessed` of `src/db/queries.rs`: one batched
`UPDATE ... SET accessed_at = NOW(), access_count = access_count + 1 WHERE id
= ANY($ids)` — each matching row is updated exactly once. -/
def mark_memories_accessed (store : List Memory) (now : Int) (ids : List Nat) :
    List Memory :=
  store.map (fun m =>
    if ids.contains m.id then
      { m with accessedAt := some now, accessCount := m.accessCount + 1 }
    else m)

/-- Models the scope-only WHERE fragment shared by the `list_recent` count and
page queries of `src/db/queries.rs`. -/
def scopeOnlyPred (scopeFilter : Option Scope) (projectPath : Option RStr)
    (includeBothScopes : Bool) (m : Memory) : Bool :=
  if includeBothScopes then scopePredBoth projectPath m
  else
    match scopeFilter with
    | some .project => decide (m.scope = .project) && sqlEqOpt m.projectPath projectPath
    | some .global => decide (m.scope = .global)
    | none => true

/-- Models the ORDER BY key of `list_recent`: `created_at` descending only. -/
def recentLe (a b : Memory) : Bool := decide (b.createdAt ≤ a.createdAt)

/-- Models `list_recent` of `src/db/queries.rs`: the total count over the
scope filter, and the page ordered by `created_at DESC` capped at `limit`. -/
def list_recent (store : List Memory) (scopeFilter : Option Scope)
    (projectPath : Option RStr) (includeBothScopes : Bool) (limit : Nat) :
    List Memory × Nat :=
  let total := (store.filter (scopeOnlyPred scopeFilter projectPath includeBothScopes)).length
  let rows :=
    (((store.filter (scopeOnlyPred scopeFilter projectPath includeBothScopes)).mergeSort
        recentLe).take limit)
  (rows, total)

/-- Models the scope constraint of the `consolidate_duplicates` join in
`src/db/queries.rs`: project → both rows project-scoped with the given path;
global → both global; no filter → unconstrained. -/
def consolidateScopeOk (scopeFilter : Option Scope) (projectPath : Option RStr)
    (m1 m2 : Memory) : Bool :=
  match scopeFilter with
  | some .project =>
      decide (m1.scope = .project) && decide (m2.scope = .project) &&
        sqlEqOpt m1.projectPath projectPath && sqlEqOpt m2.projectPath projectPath
  | some .global => decide (m1.scope = .global) && decide (m2.scope = .global)
  | none => true

/-- Models the join condition of `consolidate_duplicates`:
`m1.id < m2.id AND m1.type = m2.type AND LOWER(SUBSTRING(m1.content,1,100)) =
LOWER(SUBSTRING(m2.content,1,100))` plus the scope constraint. -/
def consolidatePair (scopeFilter : Option Scope) (projectPath : Option RStr)
    (m1 m2 : Memory) : Bool :=
  decide (m1.id < m2.id) && decide (m1.memoryType = m2.memoryType) &&
    decide (lowerPfx100 m1.content = lowerPfx100 m2.content) &&
    consolidateScopeOk scopeFilter projectPath m1 m2

/-- Models `consolidate_duplicates` of `src/db/queries.rs`: collect every
`m2.id` of the self-join, then delete each collected id. -/
def consolidate_duplicates (store : List Memory) (scopeFilter : Option Scope)
    (projectPath : Option RStr) : List Nat × List Memory :=
  let duplicateIds :=
    store.flatMap (fun m1 =>
      (store.filter (fun m2 => consolidatePair scopeFilter projectPath m1 m2)).map (·.id))
  (duplicateIds, store.filter (fun m => ! duplicateIds.contains m.id))

/-- Models the per-memory scope filter of the prune queries in
`src/db/queries.rs` (`scope = 'project' AND project_path = $2`, or
`scope = 'global'`, or unconstrained). -/
def pruneScopeOk (scopeFilter : Option Scope) (projectPath : Option RStr)
    (m : Memory) : Bool :=
  match scopeFilter with
  | some .project => decide (m.scope = .project) && sqlEqOpt m.projectPath projectPath
  | some .global => decide (m.scope = .global)
  | none => true

/-- Models `prune_old_memories` of `src/db/queries.rs`: delete `confidence =
'low'` rows with `access_count = 0` and `created_at < NOW() - days`, under
the scope filter; returns the deleted ids and the remaining store. -/
def prune_old_memories (store : List Memory) (now : Int) (days : Int)
    (scopeFilter : Option Scope) (projectPath : Option RStr) :
    List Nat × List Memory :=
  let pred : Memory → Bool := fun m =>
    decide (m.confidence = .low) && decide (m.accessCount = 0) &&
      decide (m.createdAt < now - days) && pruneScopeOk scopeFilter projectPath m
  ((store.filter pred).map (·.id), store.filter (fun m => ! pred m))

/-- Modelled from the spec: `prune_old_memories_tiered` is re-exported by
`src/db/mod.rs` and called by `commands/maintenance.rs::prune`, but its body
is not under src/.  Spec §4.4: delete `confidence=low` records with
`access_count=0` and `created_at` older than `low_days`; independently delete
`confidence=medium` records with `access_count=0` and older than
`medium_days`; `confidence=high` records are never eligible; both deletions
honor the same scope filter as consolidate.  Returns (low ids, medium ids,
remaining store). -/
def prune_old_memories_tiered (store : List Memory) (now : Int)
    (lowDays mediumDays : Int) (scopeFilter : Option Scope)
    (projectPath : Option RStr) : List Nat × List Nat × List Memory :=
  let lowPred : Memory → Bool := fun m =>
    decide (m.confidence = .low) && decide (m.accessCount = 0) &&
      decide (m.createdAt < now - lowDays) && pruneScopeOk scopeFilter projectPath m
  let mediumPred : Memory → Bool := fun m =>
    decide (m.confidence = .medium) && decide (m.accessCount = 0) &&
      decide (m.createdAt < now - mediumDays) && pruneScopeOk scopeFilter projectPath m
  ((store.filter lowPred).map (·.id), (store.filter mediumPred).map (·.id),
    store.filter (fun m => ! lowPred m && ! mediumPred m))

/-- Models `TypeCounts` of `src/db/queries.rs`. -/
structure TypeCounts where
  convention : Nat
  architecture : Nat
  gotcha : Nat
  api : Nat
  learning : Nat
  preference : Nat
deriving DecidableEq, Repr

/-- Models `ConfidenceCounts` of `src/db/queries.rs`. -/
structure ConfidenceCounts where
  high : Nat
  medium : Nat
  low : Nat
deriving DecidableEq, Repr

/-- Models `ScopeCounts` of `src/db/queries.rs`. -/
structure ScopeCounts where
  project : Nat
  global : Nat
deriving DecidableEq, Repr

/-- Models `MemoryStats` of `src/db/queries.rs`. -/
structure MemoryStats where
  total : Nat
  byType : TypeCounts
  byConfidence : ConfidenceCounts
  byScope : ScopeCounts
deriving DecidableEq, Repr

/-- The single-quote character, written via its code point. `get_stats` in
`src/db/queries.rs` splices the caller path into the SQL text with
`format!`, so this character in a path changes the query text itself. -/
def sqlQuote : Char := Char.ofNat 39

/-- Which branches of the `get_stats` WHERE-clause construction in
`src/db/queries.rs` interpolate the caller path into the SQL string: the
both-scopes branch and the project branch do (`format!` with
`project_path.unwrap_or("")`); the global and unfiltered branches do not. -/
def statsInterpolatesPath (scopeFilter : Option Scope)
    (includeBothScopes : Bool) : Bool :=
  includeBothScopes ||
    (match scopeFilter with
     | some .project => true
     | _ => false)

/-- The row predicate denoted by the WHERE clause string that `get_stats` in
`src/db/queries.rs` builds, for a caller path whose interpolation is clean
(no single quote in it; `Db.get_stats` guards that case separately).  The
interpolated literal is `project_path.unwrap_or("")`, so a missing caller
path compares stored paths against the empty string (a stored NULL path
never matches a literal). -/
def statsWhere (scopeFilter : Option Scope) (projectPath : Option RStr)
    (includeBothScopes : Bool) (m : Memory) : Bool :=
  if includeBothScopes then
    decide (m.scope = .global) ||
      (decide (m.scope = .project) && sqlEqOpt m.projectPath (some (projectPath.getD [])))
  else
    match scopeFilter with
    | some .project =>
        decide (m.scope = .project) && sqlEqOpt m.projectPath (some (projectPath.getD []))
    | some .global => decide (m.scope = .global)
    | none => true

/-- Models `get_stats` of `src/db/queries.rs`: a COUNT(*) plus three GROUP BY
aggregations over the same WHERE clause, zero-filled into the structs.  The
clause is assembled by string interpolation, not a bound parameter: when the
interpolating branches receive a caller path containing a single quote, the
resulting SQL text is malformed (or, for crafted paths, a clause with
different semantics), which the model maps uniformly to the storage-error
outcome `none`; the clean-path clause denotes `statsWhere`. -/
def get_stats (store : List Memory) (scopeFilter : Option Scope)
    (projectPath : Option RStr) (includeBothScopes : Bool) :
    Option MemoryStats :=
  if statsInterpolatesPath scopeFilter includeBothScopes &&
      (projectPath.getD []).contains sqlQuote then none
  else
  let f := store.filter (statsWhere scopeFilter projectPath includeBothScopes)
  some
  { total := f.length
    byType :=
      { convention := (f.filter (fun m => decide (m.memoryType = .convention))).length
        architecture := (f.filter (fun m => decide (m.memoryType = .architecture))).length
        gotcha := (f.filter (fun m => decide (m.memoryType = .gotcha))).length
        api := (f.filter (fun m => decide (m.memoryType = .api))).length
        learning := (f.filter (fun m => decide (m.memoryType = .learning))).length
        preference := (f.filter (fun m => decide (m.memoryType = .preference))).length }
    byConfidence :=
      { high := (f.filter (fun m => decide (m.confidence = .high))).length
        medium := (f.filter (fun m => decide (m.confidence = .medium))).length
        low := (f.filter (fun m => decide (m.confidence = .low))).length }
    byScope :=
      { project := (f.filter (fun m => decide (m.scope = .project))).length
        global := (f.filter (fun m => decide (m.scope = .global))).length } }

end Db

/-- Models `MemorySummary` of `src/models/memory.rs`. -/
structure MemorySummary where
  id : Nat
  memoryType : MemoryType
  tier : Scope
  summary : RStr
  tags : List RStr
  confidence : Confidence
  created : Int
  accessCount : Nat
deriving DecidableEq, Repr

/-- Models `Memory::to_summary` of `src/models/memory.rs` (`none` = the
summary slice panicked). -/
def Memory.toSummary (m : Memory) : Option MemorySummary :=
  (to_summary m.content).map (fun s =>
    { id := m.id, memoryType := m.memoryType, tier := m.scope, summary := s,
      tags := m.tags, confidence := m.confidence, created := m.createdAt,
      accessCount := m.accessCount })

/-- Models `MemorySearchItem` of `src/commands/search.rs`. -/
structure MemorySearchItem where
  id : Nat
  memoryType : MemoryType
  tier : Scope
  summary : RStr
  content : RStr
  tags : List RStr
  confidence : Confidence
  created : Int
  accessed : Option Int
  accessCount : Nat
deriving DecidableEq, Repr

/-- Models `From<Memory> for MemorySearchItem` of `src/commands/search.rs`
(`none` = the summary slice panicked). -/
def memoryToSearchItem (m : Memory) : Option MemorySearchItem :=
  (search_item_summary m.content).map (fun s =>
    { id := m.id, memoryType := m.memoryType, tier := m.scope, summary := s,
      content := m.content, tags := m.tags, confidence := m.confidence,
      created := m.createdAt, accessed := m.accessedAt,
      accessCount := m.accessCount })

/-- The write-side `tier → scope` resolution of `src/commands/memory.rs`:
`Global → Scope::Global`, `Project | Both → Scope::Project`. -/
def resolveWriteScope : Tier → Scope
  | .global => .global
  | .project | .both => .project

/-- The effect of one access-tracking hit on a row: `accessed_at = NOW(),
access_count = access_count + 1`, all other columns untouched. -/
def accessBump (now : Int) (m : Memory) : Memory :=
  { m with accessedAt := some now, accessCount := m.accessCount + 1 }

/-- The adjacent-pair ordering of search results asserted by the spec:
confidence rank non-decreasing, and `created_at` non-increasing within equal
ranks. -/
def searchOrder (a b : Memory) : Prop :=
  a.confidence.sortOrder ≤ b.confidence.sortOrder ∧
    (a.confidence.sortOrder = b.confidence.sortOrder → b.createdAt ≤ a.createdAt)

/-- The adjacent-pair ordering of context entries asserted by the spec:
confidence rank, then `access_count` descending, then `created_at`
descending. -/
def ctxOrder (a b : Memory) : Prop :=
  a.confidence.sortOrder ≤ b.confidence.sortOrder ∧
    (a.confidence.sortOrder = b.confidence.sortOrder →
      b.accessCount ≤ a.accessCount ∧
        (a.accessCount = b.accessCount → b.createdAt ≤ a.createdAt))

namespace Cmd

/-- Models `tier_to_scope_filter` of `src/commands/search.rs` and
`src/commands/stats.rs`. -/
def tier_to_scope_filter : Tier → Option Scope × Bool
  | .project => (some .project, false)
  | .global => (some .global, false)
  | .both => (none, true)

/-- Models the `tier → scope_filter` match of `src/commands/maintenance.rs`
(consolidate, prune, purge): global → Some(Global), project → Some(Project),
both → None. -/
def tierToScopeFilterMaint : Tier → Option Scope
  | .global => some .global
  | .project => some .project
  | .both => none

/-- Models `AddMemoryOptions` of `src/commands/memory.rs`. -/
structure AddMemoryOptions where
  memoryType : MemoryType
  content : RStr
  tags : List RStr
  confidence : Confidence
  tier : Tier
  projectPath : Option RStr
  sourceSessionId : Option Nat
  sourceTurnId : Option Nat

/-- Models `AddMemoryResult` of `src/commands/memory.rs`: either the new id,
or the duplicate payload (existingId, existingTier, existingSummary). -/
inductive AddMemoryResult where
  | success (id : Nat)
  | duplicate (existingId : Nat) (existingTier : Scope) (existingSummary : RStr)
deriving DecidableEq, Repr

/-- Models `add_memory` of `src/commands/memory.rs`: duplicate check, tier →
scope resolution (global → Global, project or both → Project), path kept only
for Project scope, then insert.  Outer `none` models a panic inside the
duplicate summary derivation. -/
def add_memory (store : List Memory) (newId : Nat) (now : Int)
    (opts : AddMemoryOptions) : Option (AddMemoryResult × List Memory) :=
  match Db.find_duplicate store opts.memoryType opts.content with
  | none => none
  | some (some dup) => some (.duplicate dup.id dup.scope dup.summary, store)
  | some none =>
    let scope := resolveWriteScope opts.tier
    let projectPath := if scope = .project then opts.projectPath else none
    some (.success newId,
      Db.insert_memory store newId now opts.memoryType scope projectPath
        opts.content opts.tags opts.confidence opts.sourceSessionId
        opts.sourceTurnId)

/-- Models `update_memory` of `src/commands/memory.rs`: tier resolves to a
scope exactly as in add, and the caller-supplied `project_path` is passed to
the UPDATE unconditionally.  The Bool reports success (false = NotFound). -/
def update_memory (store : List Memory) (id : Nat) (content : RStr)
    (tier : Option Tier) (projectPath : Option RStr) (now : Int) :
    List Memory × Bool :=
  Db.update_memory store id content (tier.map resolveWriteScope) projectPath now

/-- Models `search_keyword` of `src/commands/search.rs`: query, then mark the
returned ids accessed (skipped when the result is empty), then convert to
search items (`none` = a summary slice panicked).  Returns the converted
items and the store after access tracking. -/
def search_keyword (store : List Memory) (now : Int) (q : RStr) (tier : Tier)
    (limit : Nat) (projectPath : Option RStr) :
    Option (List MemorySearchItem) × List Memory :=
  let (scopeFilter, includeBoth) := tier_to_scope_filter tier
  let memories := Db.search_keyword store q scopeFilter projectPath includeBoth limit
  let store2 :=
    if memories.isEmpty then store
    else Db.mark_memories_accessed store now (memories.map (·.id))
  (memories.mapM memoryToSearchItem, store2)

/-- Models `search_by_type` of `src/commands/search.rs` (same access-tracking
shape as `search_keyword`). -/
def search_by_type (store : List Memory) (now : Int) (t : MemoryType)
    (q : Option RStr) (tier : Tier) (limit : Nat) (projectPath : Option RStr) :
    Option (List MemorySearchItem) × List Memory :=
  let (scopeFilter, includeBoth) := tier_to_scope_filter tier
  let memories := Db.search_by_type store t q scopeFilter projectPath includeBoth limit
  let store2 :=
    if memories.isEmpty then store
    else Db.mark_memories_accessed store now (memories.map (·.id))
  (memories.mapM memoryToSearchItem, store2)

/-- Models one formatted entry line of `format_context_block` in
`src/commands/search.rs`: `- {symbol} **{type}**: {summary}\n`. -/
def contextLine (e : MemorySummary) : RStr :=
  "- ".toList ++ e.confidence.symbol ++ " **".toList ++ e.memoryType.asStr ++
    "**: ".toList ++ e.summary ++ "\n".toList

/-- Models `format_context_block` of `src/commands/search.rs`: the heading,
then either the literal no-memories line or one `- <symbol> **<type>**:
<summary>` line per entry, in order. -/
def format_context_block (entries : List MemorySummary) : RStr :=
  "## Memory Context\n\n".toList ++
    (if entries.isEmpty then "No memories loaded.\n".toList
     else entries.flatMap contextLine)

/-- Models `ContextResult` of `src/commands/search.rs`. -/
structure ContextResult where
  context : RStr
  count : Nat
  entries : List MemorySummary
deriving DecidableEq, Repr

/-- Models `get_context` of `src/commands/search.rs`: query, mark accessed,
derive summaries (`none` = a summary slice panicked), render the block. -/
def get_context (store : List Memory) (now : Int) (limit : Nat)
    (projectPath : Option RStr) : Option ContextResult × List Memory :=
  let memories := Db.get_context_memories store projectPath limit
  let store2 :=
    if memories.isEmpty then store
    else Db.mark_memories_accessed store now (memories.map (·.id))
  ((memories.mapM Memory.toSummary).map (fun entries =>
      { context := format_context_block entries, count := entries.length,
        entries := entries }),
   store2)

/-- Models `ListRecentResult` of `src/commands/search.rs`. -/
structure ListRecentResult where
  entries : List MemorySummary
  total : Nat
deriving DecidableEq, Repr

/-- Models `list_recent` of `src/commands/search.rs`: query page and total,
derive summaries; the command performs no access tracking, so the store is
returned unchanged. -/
def list_recent (store : List Memory) (limit : Nat) (tier : Tier)
    (projectPath : Option RStr) : Option ListRecentResult × List Memory :=
  let (scopeFilter, includeBoth) := tier_to_scope_filter tier
  let (memories, total) := Db.list_recent store scopeFilter projectPath includeBoth limit
  ((memories.mapM Memory.toSummary).map (fun entries =>
      { entries := entries, total := total }),
   store)

/-- Models `get_memory` of `src/commands/memory.rs`: point lookup then
summary view; `some none` = not found, outer `none` = summary panic. -/
def get_memory (store : List Memory) (id : Nat) : Option (Option MemorySummary) :=
  match Db.get_memory store id with
  | some m =>
    match m.toSummary with
    | some s => some (some s)
    | none => none
  | none => some none

/-- Models `ConsolidateData` of `src/models` as produced by
`consolidate` in `src/commands/maintenance.rs`. -/
structure ConsolidateData where
  removed : Nat
  duplicateIds : List Nat
deriving DecidableEq, Repr

/-- Models `consolidate` of `src/commands/maintenance.rs`. -/
def consolidate (store : List Memory) (tier : Tier) (projectPath : Option RStr) :
    ConsolidateData × List Memory :=
  let (duplicateIds, store2) :=
    Db.consolidate_duplicates store (tierToScopeFilterMaint tier) projectPath
  ({ removed := duplicateIds.length, duplicateIds := duplicateIds }, store2)

/-- Models `TieredPruneData` of `src/models` as produced by `prune` in
`src/commands/maintenance.rs`. -/
structure TieredPruneData where
  lowPruned : Nat
  lowPrunedIds : List Nat
  mediumPruned : Nat
  mediumPrunedIds : List Nat
  totalPruned : Nat
deriving DecidableEq, Repr

/-- Models `prune` of `src/commands/maintenance.rs`: tier → scope filter,
tiered deletion, and the report with the low/medium id lists and their sum. -/
def prune (store : List Memory) (now : Int) (lowDays mediumDays : Int)
    (tier : Tier) (projectPath : Option RStr) : TieredPruneData × List Memory :=
  let (lowIds, mediumIds, store2) :=
    Db.prune_old_memories_tiered store now lowDays mediumDays
      (tierToScopeFilterMaint tier) projectPath
  ({ lowPruned := lowIds.length, lowPrunedIds := lowIds,
     mediumPruned := mediumIds.length, mediumPrunedIds := mediumIds,
     totalPruned := lowIds.length + mediumIds.length }, store2)

/-- Models `get_stats` of `src/commands/stats.rs`: tier → scope filter, then
the read-only aggregation of `Db.get_stats` (the source issues only SELECT
statements, so the store is untouched; a storage error from the malformed
interpolated query propagates as `none`). -/
def get_stats (store : List Memory) (tier : Tier) (projectPath : Option RStr) :
    Option Db.MemoryStats :=
  let (scopeFilter, includeBoth) := tier_to_scope_filter tier
  Db.get_stats store scopeFilter projectPath includeBoth

end Cmd

/-! Concrete fixtures used by the closed evaluation theorems below. -/

/-- A content string of 101 UTF-8 bytes whose byte 97 falls inside the
three-byte character `€` (96 ASCII bytes, then `€ab`). -/
def panicContent : RStr := List.replicate 96 'a' ++ ['€', 'a', 'b']

/-- Add options carrying `panicContent`. -/
def panicAddOpts : Cmd.AddMemoryOptions :=
  { memoryType := .learning, content := panicContent, tags := [],
    confidence := .high, tier := .global, projectPath := none,
    sourceSessionId := none, sourceTurnId := none }

/-- The store produced by adding `panicAddOpts` to an empty store. -/
def panicStore : List Memory :=
  [{ id := 1, memoryType := .learning, scope := .global, projectPath := none,
     content := panicContent, tags := [], confidence := .high,
     sourceSessionId := none, sourceTurnId := none, createdAt := 0,
     updatedAt := 0, accessedAt := none, accessCount := 0 }]

/-- A project-scoped memory with zero accesses. -/
def mProj : Memory :=
  { id := 1, memoryType := .learning, scope := .project,
    projectPath := some "/p".toList, content := "Test".toList, tags := [],
    confidence := .high, sourceSessionId := none, sourceTurnId := none,
    createdAt := 0, updatedAt := 0, accessedAt := none, accessCount := 0 }

/-- A rendered context entry. -/
def sampleEntry : MemorySummary :=
  { id := 1, memoryType := .learning, tier := .global, summary := "Test".toList,
    tags := [], confidence := .high, created := 0, accessCount := 0 }

/-- First add of the duplicate-detection scenario (project tier). -/
def witAdd1 : Cmd.AddMemoryOptions :=
  { memoryType := .learning, content := "Use pooling".toList, tags := [],
    confidence := .high, tier := .project, projectPath := some "/p".toList,
    sourceSessionId := none, sourceTurnId := none }

/-- Second add of the duplicate-detection scenario: same type, same lowercase
prefix, different casing and different (global) tier. -/
def witAdd2 : Cmd.AddMemoryOptions :=
  { memoryType := .learning, content := "USE POOLING".toList, tags := [],
    confidence := .low, tier := .global, projectPath := none,
    sourceSessionId := none, sourceTurnId := none }

/-- The store produced by adding `witAdd1` to an empty store. -/
def witStore1 : List Memory :=
  [{ id := 1, memoryType := .learning, scope := .project,
     projectPath := some "/p".toList, content := "Use pooling".toList,
     tags := [], confidence := .high, sourceSessionId := none,
     sourceTurnId := none, createdAt := 0, updatedAt := 0, accessedAt := none,
     accessCount := 0 }]

/-! Helper lemmas shared by the claim theorems. -/

theorem searchLe_trans (a b c : Memory) (h1 : Db.searchLe a b = true)
    (h2 : Db.searchLe b c = true) : Db.searchLe a c = true := by
  simp only [Db.searchLe, decide_eq_true_eq] at *
  omega

theorem searchLe_total (a b : Memory) : (Db.searchLe a b || Db.searchLe b a) = true := by
  simp only [Db.searchLe, Bool.or_eq_true, decide_eq_true_eq]
  omega

theorem searchLe_imp_order (a b : Memory) (h : Db.searchLe a b = true) :
    searchOrder a b := by
  simp only [Db.searchLe, decide_eq_true_eq] at h
  simp only [searchOrder]
  omega

theorem contextLe_trans (a b c : Memory) (h1 : Db.contextLe a b = true)
    (h2 : Db.contextLe b c = true) : Db.contextLe a c = true := by
  simp only [Db.contextLe, decide_eq_true_eq] at *
  omega

theorem contextLe_total (a b : Memory) : (Db.contextLe a b || Db.contextLe b a) = true := by
  simp only [Db.contextLe, Bool.or_eq_true, decide_eq_true_eq]
  omega

theorem contextLe_imp_order (a b : Memory) (h : Db.contextLe a b = true) :
    ctxOrder a b := by
  simp only [Db.contextLe, decide_eq_true_eq] at h
  simp only [ctxOrder]
  omega

theorem sorted_take_chain {le : Memory → Memory → Bool} {R : Memory → Memory → Prop}
    (htrans : ∀ a b c, le a b = true → le b c = true → le a c = true)
    (htotal : ∀ a b, (le a b || le b a) = true)
    (himp : ∀ a b, le a b = true → R a b)
    (l : List Memory) (n : Nat) :
    List.Chain' R ((l.mergeSort le).take n) := by
  have hp := List.sorted_mergeSort htrans htotal l
  have hp2 := List.Pairwise.sublist (List.take_sublist n _) hp
  exact (hp2.imp (fun {a b} h => himp a b h)).chain'

theorem byteLen_nil : byteLen [] = 0 := rfl

theorem byteLen_cons (c : Char) (s : RStr) :
    byteLen (c :: s) = c.utf8Size + byteLen s := by
  simp [byteLen]

theorem byteTake_some : ∀ (s : RStr) (n : Nat) (p : RStr),
    byteTake n s = some p → p <+: s ∧ byteLen p = n := by
  intro s
  induction s with
  | nil =>
    intro n p h
    cases n with
    | zero =>
      simp only [byteTake, Option.some.injEq] at h
      subst h
      exact ⟨List.nil_prefix, rfl⟩
    | succ k => simp [byteTake] at h
  | cons c cs ih =>
    intro n p h
    cases n with
    | zero =>
      simp only [byteTake, Option.some.injEq] at h
      subst h
      exact ⟨List.nil_prefix, rfl⟩
    | succ k =>
      simp only [byteTake] at h
      split at h
      · next hsz =>
        rcases Option.map_eq_some'.mp h with ⟨q, hq, rfl⟩
        rcases ih _ _ hq with ⟨hpre, hlen⟩
        refine ⟨List.cons_prefix_cons.mpr ⟨rfl, hpre⟩, ?_⟩
        rw [byteLen_cons, hlen]
        omega
      · exact absurd h (by simp)

theorem mark_accessed_forall₂ (store : List Memory) (now : Int) (ids : List Nat) :
    List.Forall₂ (fun m m2 => m2 = if m.id ∈ ids then accessBump now m else m)
      store (Db.mark_memories_accessed store now ids) := by
  induction store with
  | nil => exact List.Forall₂.nil
  | cons m ms ih =>
    refine List.Forall₂.cons ?_ ih
    by_cases h : m.id ∈ ids
    · simp [Db.mark_memories_accessed, h, List.elem_iff, accessBump]
    · simp [Db.mark_memories_accessed, h, List.elem_iff]

theorem find_duplicate_none_inv (S : List Memory) (t : MemoryType) (c : RStr)
    (h : Db.find_duplicate S t c = some none) :
    S.find? (fun m =>
      decide (m.memoryType = t) && decide (lowerPfx100 m.content = lowerPfx100 c)) = none := by
  unfold Db.find_duplicate at h
  cases hf : S.find? (fun m =>
      decide (m.memoryType = t) && decide (lowerPfx100 m.content = lowerPfx100 c)) with
  | none => rfl
  | some m =>
    rw [hf] at h
    cases hd : dup_summary m.content <;> simp [hd] at h

theorem consolidate_ids_mem (store : List Memory) (f : Option Scope)
    (p : Option RStr) (i : Nat) :
    i ∈ (Db.consolidate_duplicates store f p).1 ↔
      ∃ m1, m1 ∈ store ∧ ∃ m2, m2 ∈ store ∧
        Db.consolidatePair f p m1 m2 = true ∧ m2.id = i := by
  simp only [Db.consolidate_duplicates, List.mem_flatMap, List.mem_map, List.mem_filter]
  constructor
  · rintro ⟨m1, hm1, m2, ⟨hm2, hpair⟩, rfl⟩
    exact ⟨m1, hm1, m2, hm2, hpair, rfl⟩
  · rintro ⟨m1, hm1, m2, hm2, hpair, rfl⟩
    exact ⟨m1, hm1, m2, ⟨hm2, hpair⟩, rfl⟩

theorem consolidate_store_mem (store : List Memory) (f : Option Scope)
    (p : Option RStr) (m : Memory) :
    m ∈ (Db.consolidate_duplicates store f p).2 ↔
      m ∈ store ∧ m.id ∉ (Db.consolidate_duplicates store f p).1 := by
  simp [Db.consolidate_duplicates, List.mem_filter]

theorem cmd_mark_spec (store : List Memory) (now : Int) (ms : List Memory) :
    List.Forall₂ (fun m m2 => m2 = if m.id ∈ ms.map (·.id) then accessBump now m else m)
      store
      (if ms.isEmpty then store
       else Db.mark_memories_accessed store now (ms.map (·.id))) := by
  by_cases h : ms.isEmpty = true
  · have hnil : ms = [] := List.isEmpty_iff.mp h
    subst hnil
    simp only [List.isEmpty_nil, if_true, List.map_nil]
    exact List.forall₂_same.mpr (fun x _ => by simp)
  · rw [if_neg h]
    exact mark_accessed_forall₂ store now (ms.map (·.id))

theorem stats_count_eq (store : List Memory) (a sp : Memory → Bool)
    (h : ∀ m, a m = sp m) (b : Memory → Bool) :
    (List.filter b (List.filter a store)).length = store.countP (fun m => sp m && b m) := by
  rw [List.filter_filter, List.countP_eq_length_filter]
  congr 1
  exact List.filter_congr (fun m _ => by rw [h m, Bool.and_comm])

theorem pred4_false_iff {a b c : Prop} [Decidable a] [Decidable b] [Decidable c]
    (bl : Bool) :
    ((decide a && decide b && decide c && bl) = false ↔ ¬(a ∧ b ∧ c ∧ bl = true)) := by
  cases bl <;> simp [and_assoc]

/-! Claim theorems. -/

set_option maxRecDepth 8000 in
/-- C1 counterexample: the claim fails as stated.  Starting from an empty
store, an add of a 101-byte content whose byte 97 splits a character
succeeds; a second add with the same type and an equal lowercase prefix then
panics inside the duplicate summary derivation (modelled as `none`) instead
of returning a duplicate result. -/
theorem claim_C1_cex :
    Cmd.add_memory [] 1 0 panicAddOpts = some (.success 1, panicStore) ∧
    Cmd.add_memory panicStore 2 0 panicAddOpts = none := by
  constructor <;> decide

/-- C1 (amended): if an add succeeds on store `S` producing `S2`, and a
second candidate has the same type and an equal lowercase 100-character
prefix, and the stored content's summary derivation does not panic, then the
second add returns a duplicate result carrying the stored memory's id, its
resolved scope and its derived summary, leaving the store unchanged —
regardless of either candidate's tier. -/
theorem claim_C1_thm (S S2 : List Memory) (o1 o2 : Cmd.AddMemoryOptions)
    (id1 id2 : Nat) (n1 n2 : Int) (s : RStr)
    (h1 : Cmd.add_memory S id1 n1 o1 = some (.success id1, S2))
    (ht : o2.memoryType = o1.memoryType)
    (hp : lowerPfx100 o2.content = lowerPfx100 o1.content)
    (hs : dup_summary o1.content = some s) :
    Cmd.add_memory S2 id2 n2 o2 =
      some (.duplicate id1 (resolveWriteScope o1.tier) s, S2) := by
  cases hfd : Db.find_duplicate S o1.memoryType o1.content with
  | none =>
    have hnone : Cmd.add_memory S id1 n1 o1 = none := by
      unfold Cmd.add_memory; rw [hfd]
    rw [hnone] at h1
    exact absurd h1 (by simp)
  | some x =>
    cases x with
    | some d =>
      have hdup : Cmd.add_memory S id1 n1 o1 =
          some (.duplicate d.id d.scope d.summary, S) := by
        unfold Cmd.add_memory; rw [hfd]
      rw [hdup] at h1
      simp at h1
    | none =>
      have hins : Cmd.add_memory S id1 n1 o1 =
          some (.success id1,
            Db.insert_memory S id1 n1 o1.memoryType (resolveWriteScope o1.tier)
              (if resolveWriteScope o1.tier = .project then o1.projectPath else none)
              o1.content o1.tags o1.confidence o1.sourceSessionId
              o1.sourceTurnId) := by
        unfold Cmd.add_memory; rw [hfd]
      rw [hins] at h1
      simp only [Option.some.injEq, Prod.mk.injEq] at h1
      obtain ⟨-, hS2⟩ := h1
      have hfind := find_duplicate_none_inv S o1.memoryType o1.content hfd
      unfold Cmd.add_memory
      have hfd2 : Db.find_duplicate S2 o2.memoryType o2.content =
          some (some ⟨id1, resolveWriteScope o1.tier, s⟩) := by
        unfold Db.find_duplicate
        rw [ht, hp, ← hS2]
        unfold Db.insert_memory
        rw [List.find?_append, hfind]
        simp [List.find?, hs]
      rw [hfd2]

/-- C1 witness: a concrete two-add run in which the second add (different
casing, different tier) is rejected as a duplicate of the first. -/
theorem claim_C1_wit :
    Cmd.add_memory [] 1 0 witAdd1 = some (.success 1, witStore1) ∧
    witAdd2.memoryType = witAdd1.memoryType ∧
    lowerPfx100 witAdd2.content = lowerPfx100 witAdd1.content ∧
    dup_summary witAdd1.content = some "Use pooling".toList ∧
    Cmd.add_memory witStore1 2 7 witAdd2 =
      some (.duplicate 1 (resolveWriteScope witAdd1.tier) "Use pooling".toList,
        witStore1) :=
  ⟨by decide, by decide, by decide, by decide,
    claim_C1_thm [] witStore1 witAdd1 witAdd2 1 2 0 7 _ (by decide) (by decide)
      (by decide) (by decide)⟩

/-- C2: tiered prune deletes exactly the low-confidence, zero-access records
older than `low_days` and, independently, the medium-confidence, zero-access
records older than `medium_days`; high-confidence records always survive; and
the result reports the low ids, the medium ids, and their total. -/
theorem claim_C2_thm (store : List Memory) (now lowDays mediumDays : Int)
    (tier : Tier) (path : Option RStr) :
    (∀ i, i ∈ (Cmd.prune store now lowDays mediumDays tier path).1.lowPrunedIds ↔
      ∃ m, m ∈ store ∧ m.id = i ∧ m.confidence = .low ∧ m.accessCount = 0 ∧
        m.createdAt < now - lowDays ∧
        Db.pruneScopeOk (Cmd.tierToScopeFilterMaint tier) path m = true) ∧
    (∀ i, i ∈ (Cmd.prune store now lowDays mediumDays tier path).1.mediumPrunedIds ↔
      ∃ m, m ∈ store ∧ m.id = i ∧ m.confidence = .medium ∧ m.accessCount = 0 ∧
        m.createdAt < now - mediumDays ∧
        Db.pruneScopeOk (Cmd.tierToScopeFilterMaint tier) path m = true) ∧
    (∀ m, m ∈ store → m.confidence = .high →
      m ∈ (Cmd.prune store now lowDays mediumDays tier path).2) ∧
    (∀ m, m ∈ store →
      (m ∈ (Cmd.prune store now lowDays mediumDays tier path).2 ↔
        ¬(m.confidence = .low ∧ m.accessCount = 0 ∧ m.createdAt < now - lowDays ∧
            Db.pruneScopeOk (Cmd.tierToScopeFilterMaint tier) path m = true) ∧
        ¬(m.confidence = .medium ∧ m.accessCount = 0 ∧ m.createdAt < now - mediumDays ∧
            Db.pruneScopeOk (Cmd.tierToScopeFilterMaint tier) path m = true))) ∧
    ((Cmd.prune store now lowDays mediumDays tier path).1.totalPruned =
        (Cmd.prune store now lowDays mediumDays tier path).1.lowPruned +
          (Cmd.prune store now lowDays mediumDays tier path).1.mediumPruned ∧
      (Cmd.prune store now lowDays mediumDays tier path).1.lowPruned =
        (Cmd.prune store now lowDays mediumDays tier path).1.lowPrunedIds.length ∧
      (Cmd.prune store now lowDays mediumDays tier path).1.mediumPruned =
        (Cmd.prune store now lowDays mediumDays tier path).1.mediumPrunedIds.length) := by
  refine ⟨?_, ?_, ?_, ?_, rfl, rfl, rfl⟩
  · intro i
    simp only [Cmd.prune, Db.prune_old_memories_tiered, List.mem_map,
      List.mem_filter, Bool.and_eq_true, decide_eq_true_eq]
    constructor
    · rintro ⟨m, ⟨hm, ⟨⟨hc, ha⟩, hd⟩, hsc⟩, rfl⟩
      exact ⟨m, hm, rfl, hc, ha, hd, hsc⟩
    · rintro ⟨m, hm, rfl, hc, ha, hd, hsc⟩
      exact ⟨m, ⟨hm, ⟨⟨hc, ha⟩, hd⟩, hsc⟩, rfl⟩
  · intro i
    simp only [Cmd.prune, Db.prune_old_memories_tiered, List.mem_map,
      List.mem_filter, Bool.and_eq_true, decide_eq_true_eq]
    constructor
    · rintro ⟨m, ⟨hm, ⟨⟨hc, ha⟩, hd⟩, hsc⟩, rfl⟩
      exact ⟨m, hm, rfl, hc, ha, hd, hsc⟩
    · rintro ⟨m, hm, rfl, hc, ha, hd, hsc⟩
      exact ⟨m, ⟨hm, ⟨⟨hc, ha⟩, hd⟩, hsc⟩, rfl⟩
  · intro m hm hhigh
    simp only [Cmd.prune, Db.prune_old_memories_tiered, List.mem_filter]
    refine ⟨hm, ?_⟩
    simp [hhigh]
  · intro m hm
    simp only [Cmd.prune, Db.prune_old_memories_tiered, List.mem_filter, hm,
      true_and, Bool.and_eq_true, Bool.not_eq_true']
    rw [pred4_false_iff, pred4_false_iff]

/-- C2 witness: the theorem instantiated on a concrete store holding one low,
one medium and one high memory, all 40 days old with zero accesses, pruned
with thresholds 30/90 (the spec §8 scenario). -/
theorem claim_C2_wit :
    (∀ i, i ∈ (Cmd.prune [{ mProj with id := 1, confidence := .low },
        { mProj with id := 2, confidence := .medium },
        { mProj with id := 3, confidence := .high }] 40 30 90 .both none).1.lowPrunedIds ↔
      ∃ m, m ∈ [{ mProj with id := 1, confidence := Confidence.low },
        { mProj with id := 2, confidence := .medium },
        { mProj with id := 3, confidence := .high }] ∧ m.id = i ∧
        m.confidence = .low ∧ m.accessCount = 0 ∧ m.createdAt < 40 - 30 ∧
        Db.pruneScopeOk (Cmd.tierToScopeFilterMaint .both) none m = true) ∧
    (∀ i, i ∈ (Cmd.prune [{ mProj with id := 1, confidence := .low },
        { mProj with id := 2, confidence := .medium },
        { mProj with id := 3, confidence := .high }] 40 30 90 .both none).1.mediumPrunedIds ↔
      ∃ m, m ∈ [{ mProj with id := 1, confidence := Confidence.low },
        { mProj with id := 2, confidence := .medium },
        { mProj with id := 3, confidence := .high }] ∧ m.id = i ∧
        m.confidence = .medium ∧ m.accessCount = 0 ∧ m.createdAt < 40 - 90 ∧
        Db.pruneScopeOk (Cmd.tierToScopeFilterMaint .both) none m = true) ∧
    (∀ m, m ∈ [{ mProj with id := 1, confidence := Confidence.low },
        { mProj with id := 2, confidence := .medium },
        { mProj with id := 3, confidence := .high }] → m.confidence = .high →
      m ∈ (Cmd.prune [{ mProj with id := 1, confidence := .low },
        { mProj with id := 2, confidence := .medium },
        { mProj with id := 3, confidence := .high }] 40 30 90 .both none).2) ∧
    (∀ m, m ∈ [{ mProj with id := 1, confidence := Confidence.low },
        { mProj with id := 2, confidence := .medium },
        { mProj with id := 3, confidence := .high }] →
      (m ∈ (Cmd.prune [{ mProj with id := 1, confidence := .low },
        { mProj with id := 2, confidence := .medium },
        { mProj with id := 3, confidence := .high }] 40 30 90 .both none).2 ↔
        ¬(m.confidence = .low ∧ m.accessCount = 0 ∧ m.createdAt < 40 - 30 ∧
            Db.pruneScopeOk (Cmd.tierToScopeFilterMaint .both) none m = true) ∧
        ¬(m.confidence = .medium ∧ m.accessCount = 0 ∧ m.createdAt < 40 - 90 ∧
            Db.pruneScopeOk (Cmd.tierToScopeFilterMaint .both) none m = true))) ∧
    ((Cmd.prune [{ mProj with id := 1, confidence := .low },
        { mProj with id := 2, confidence := .medium },
        { mProj with id := 3, confidence := .high }] 40 30 90 .both none).1.totalPruned =
        (Cmd.prune [{ mProj with id := 1, confidence := .low },
        { mProj with id := 2, confidence := .medium },
        { mProj with id := 3, confidence := .high }] 40 30 90 .both none).1.lowPruned +
          (Cmd.prune [{ mProj with id := 1, confidence := .low },
        { mProj with id := 2, confidence := .medium },
        { mProj with id := 3, confidence := .high }] 40 30 90 .both none).1.mediumPruned ∧
      (Cmd.prune [{ mProj with id := 1, confidence := .low },
        { mProj with id := 2, confidence := .medium },
        { mProj with id := 3, confidence := .high }] 40 30 90 .both none).1.lowPruned =
        (Cmd.prune [{ mProj with id := 1, confidence := .low },
        { mProj with id := 2, confidence := .medium },
        { mProj with id := 3, confidence := .high }] 40 30 90 .both none).1.lowPrunedIds.length ∧
      (Cmd.prune [{ mProj with id := 1, confidence := .low },
        { mProj with id := 2, confidence := .medium },
        { mProj with id := 3, confidence := .high }] 40 30 90 .both none).1.mediumPruned =
        (Cmd.prune [{ mProj with id := 1, confidence := .low },
        { mProj with id := 2, confidence := .medium },
        { mProj with id := 3, confidence := .high }] 40 30 90 .both none).1.mediumPrunedIds.length) :=
  claim_C2_thm [{ mProj with id := 1, confidence := .low },
    { mProj with id := 2, confidence := .medium },
    { mProj with id := 3, confidence := .high }] 40 30 90 .both none

/-- C3: keyword search and type search both return lists in which every
adjacent pair is non-decreasing in confidence rank and, within equal ranks,
non-increasing in `created_at`, and the list length never exceeds the
caller-supplied limit. -/
theorem claim_C3_thm (store : List Memory) (q : RStr) (t : MemoryType)
    (qOpt : Option RStr) (scopeFilter : Option Scope) (path : Option RStr)
    (both : Bool) (limit : Nat) :
    (List.Chain' searchOrder (Db.search_keyword store q scopeFilter path both limit) ∧
      (Db.search_keyword store q scopeFilter path both limit).length ≤ limit) ∧
    (List.Chain' searchOrder (Db.search_by_type store t qOpt scopeFilter path both limit) ∧
      (Db.search_by_type store t qOpt scopeFilter path both limit).length ≤ limit) := by
  refine ⟨⟨?_, ?_⟩, ?_, ?_⟩
  · exact sorted_take_chain searchLe_trans searchLe_total searchLe_imp_order _ _
  · exact List.length_take_le _ _
  · exact sorted_take_chain searchLe_trans searchLe_total searchLe_imp_order _ _
  · exact List.length_take_le _ _

/-- C4 counterexample: the claim fails as stated for list-recent.  A concrete
list-recent invocation returns one memory, yet the store is unchanged and the
returned memory's access_count stays 0 (the command performs no
access-tracking call). -/
theorem claim_C4_cex :
    (Cmd.list_recent [mProj] 10 .both (some "/p".toList)).1 =
      some { entries := [{ id := 1, memoryType := .learning, tier := .project,
                           summary := "Test".toList, tags := [],
                           confidence := .high, created := 0,
                           accessCount := 0 }],
             total := 1 } ∧
    (Cmd.list_recent [mProj] 10 .both (some "/p".toList)).2 = [mProj] ∧
    mProj.accessCount = 0 := by
  refine ⟨?_, rfl, rfl⟩
  have hf : List.filter (Db.scopeOnlyPred none (some "/p".toList) true) [mProj] =
      [mProj] := by decide
  have hrows : (Db.list_recent [mProj] none (some "/p".toList) true 10).1 = [mProj] := by
    show (((List.filter (Db.scopeOnlyPred none (some "/p".toList) true)
      [mProj]).mergeSort Db.recentLe).take 10) = [mProj]
    rw [hf, List.mergeSort_singleton]
    decide
  have htot : (Db.list_recent [mProj] none (some "/p".toList) true 10).2 = 1 := by
    decide
  have hred : (Cmd.list_recent [mProj] 10 .both (some "/p".toList)).1 =
      ((Db.list_recent [mProj] none (some "/p".toList) true 10).1.mapM
        Memory.toSummary).map (fun entries =>
          { entries := entries,
            total := (Db.list_recent [mProj] none
                       (some "/p".toList) true 10).2 }) := rfl
  rw [hred, hrows, htot]
  decide

/-- C4 (amended): keyword search, type search and context retrieval mark
exactly the returned ids accessed — each matching row gets `accessed_at` set
and `access_count` bumped by one in a single batched update, every other row
and every other column unchanged — while list-recent performs no access
tracking at all. -/
theorem claim_C4_thm (store : List Memory) (now : Int) (q : RStr)
    (t : MemoryType) (qOpt : Option RStr) (tier : Tier) (limit : Nat)
    (path : Option RStr) :
    List.Forall₂ (fun m m2 => m2 =
        if m.id ∈ (Db.search_keyword store q (Cmd.tier_to_scope_filter tier).1
            path (Cmd.tier_to_scope_filter tier).2 limit).map (·.id)
        then accessBump now m else m)
      store (Cmd.search_keyword store now q tier limit path).2 ∧
    List.Forall₂ (fun m m2 => m2 =
        if m.id ∈ (Db.search_by_type store t qOpt (Cmd.tier_to_scope_filter tier).1
            path (Cmd.tier_to_scope_filter tier).2 limit).map (·.id)
        then accessBump now m else m)
      store (Cmd.search_by_type store now t qOpt tier limit path).2 ∧
    List.Forall₂ (fun m m2 => m2 =
        if m.id ∈ (Db.get_context_memories store path limit).map (·.id)
        then accessBump now m else m)
      store (Cmd.get_context store now limit path).2 ∧
    (Cmd.list_recent store limit tier path).2 = store := by
  refine ⟨?_, ?_, ?_, rfl⟩
  · exact cmd_mark_spec store now _
  · exact cmd_mark_spec store now _
  · exact cmd_mark_spec store now _

/-- C5: consolidate returns exactly the ids of the later elements of
duplicate pairs (same type, equal lowercase 100-character prefix, within the
scope filter), deletes exactly those, and a second run over the result
returns no ids. -/
theorem claim_C5_thm (store : List Memory) (tier : Tier) (path : Option RStr) :
    (∀ i, i ∈ (Cmd.consolidate store tier path).1.duplicateIds ↔
      ∃ m1, m1 ∈ store ∧ ∃ m2, m2 ∈ store ∧
        Db.consolidatePair (Cmd.tierToScopeFilterMaint tier) path m1 m2 = true ∧
        m2.id = i) ∧
    (∀ m, m ∈ (Cmd.consolidate store tier path).2 ↔
      m ∈ store ∧ m.id ∉ (Cmd.consolidate store tier path).1.duplicateIds) ∧
    (Cmd.consolidate (Cmd.consolidate store tier path).2 tier path).1.duplicateIds = [] ∧
    (Cmd.consolidate store tier path).1.removed =
      (Cmd.consolidate store tier path).1.duplicateIds.length := by
  refine ⟨?_, ?_, ?_, rfl⟩
  · intro i
    exact consolidate_ids_mem store (Cmd.tierToScopeFilterMaint tier) path i
  · intro m
    exact consolidate_store_mem store (Cmd.tierToScopeFilterMaint tier) path m
  · rw [List.eq_nil_iff_forall_not_mem]
    intro i hi
    obtain ⟨m1, hm1, m2, hm2, hpair, rfl⟩ :=
      (consolidate_ids_mem (Cmd.consolidate store tier path).2
        (Cmd.tierToScopeFilterMaint tier) path i).mp hi
    obtain ⟨hm1s, -⟩ :=
      (consolidate_store_mem store (Cmd.tierToScopeFilterMaint tier) path m1).mp hm1
    obtain ⟨hm2s, hm2n⟩ :=
      (consolidate_store_mem store (Cmd.tierToScopeFilterMaint tier) path m2).mp hm2
    exact hm2n ((consolidate_ids_mem store (Cmd.tierToScopeFilterMaint tier)
      path m2.id).mpr ⟨m1, hm1s, m2, hm2s, hpair, rfl⟩)

/-- C6: the code violates the global-scope invariant on update.  Updating a
project-scoped memory with tier=global and a caller path stores the path with
scope=global, so the result store breaks "scope=global → project_path =
null". -/
theorem claim_C6_thm :
    (Cmd.update_memory [mProj] 1 "x".toList (some .global) (some "/x".toList) 5).1 =
      [{ mProj with content := "x".toList, scope := .global,
                    projectPath := some "/x".toList, updatedAt := 5 }] ∧
    ¬(∀ m ∈ (Cmd.update_memory [mProj] 1 "x".toList (some .global)
        (some "/x".toList) 5).1, m.scope = Scope.global → m.projectPath = none) := by
  constructor <;> decide

/-- C7 counterexample: the claim fails as stated.  The rendered entry line is
`- ★ **learning**: Test`, with a leading `- ` that the claimed format
`<confidence-symbol> **<type>**: <summary>` does not have. -/
theorem claim_C7_cex :
    Cmd.format_context_block [sampleEntry] =
      "## Memory Context\n\n".toList ++ "- ★ **learning**: Test\n".toList ∧
    Cmd.format_context_block [sampleEntry] ≠
      "## Memory Context\n\n".toList ++ "★ **learning**: Test\n".toList := by
  constructor <;> decide

/-- C7 (amended): context entries are ordered by confidence rank, then
access_count descending, then created_at descending, and, when every summary
derivation succeeds, the rendered block is the heading followed by one
`- <symbol> **<type>**: <summary>` line per entry in query order, or the
literal "No memories loaded." line when there are no entries. -/
theorem claim_C7_thm (store : List Memory) (now : Int) (limit : Nat)
    (path : Option RStr) (es : List MemorySummary)
    (h : (Db.get_context_memories store path limit).mapM Memory.toSummary = some es) :
    List.Chain' ctxOrder (Db.get_context_memories store path limit) ∧
    (Cmd.get_context store now limit path).1 =
      some { context := "## Memory Context\n\n".toList ++
                          (if es = [] then "No memories loaded.\n".toList
                           else es.flatMap Cmd.contextLine),
             count := es.length, entries := es } := by
  constructor
  · exact sorted_take_chain contextLe_trans contextLe_total contextLe_imp_order _ _
  · have hred : (Cmd.get_context store now limit path).1 =
        ((Db.get_context_memories store path limit).mapM Memory.toSummary).map
          (fun entries => { context := Cmd.format_context_block entries,
                            count := entries.length, entries := entries }) := rfl
    rw [hred, h]
    rcases es with _ | ⟨e, es⟩ <;> simp [Cmd.format_context_block]

/-- C7 witness: the theorem applied to the empty store, whose context block
is the heading plus the literal "No memories loaded." line. -/
theorem claim_C7_wit :
    (Db.get_context_memories [] (some "/w".toList) 5).mapM Memory.toSummary =
      some [] ∧
    (List.Chain' ctxOrder (Db.get_context_memories [] (some "/w".toList) 5) ∧
      (Cmd.get_context [] 3 5 (some "/w".toList)).1 =
        some { context := "## Memory Context\n\n".toList ++
                            (if ([] : List MemorySummary) = []
                             then "No memories loaded.\n".toList
                             else ([] : List MemorySummary).flatMap Cmd.contextLine),
               count := ([] : List MemorySummary).length, entries := [] }) :=
  ⟨by simp only [Db.get_context_memories, List.filter_nil, List.mergeSort_nil,
      List.take_nil]; rfl,
    claim_C7_thm [] 3 5 (some "/w".toList) []
      (by simp only [Db.get_context_memories, List.filter_nil, List.mergeSort_nil,
        List.take_nil]; rfl)⟩

set_option maxRecDepth 8000 in
/-- C8 counterexample: the claim fails as stated.  For a 101-character ASCII
content the derived summary is the first 97 characters followed by three
ASCII periods, not followed by the single character `…`. -/
theorem claim_C8_cex :
    to_summary (List.replicate 101 'a') =
      some (List.replicate 97 'a' ++ "...".toList) ∧
    to_summary (List.replicate 101 'a') ≠
      some (List.replicate 97 'a' ++ ['…']) := by
  constructor <;> decide

/-- C8 (amended): the summary derivation compares the UTF-8 byte length
against 100 and, when it exceeds 100, yields the first 97 bytes of the
content followed by "..." (panicking when byte 97 is not a character
boundary); otherwise the content verbatim.  The same derivation is used by
`to_summary`, the search-result conversion and duplicate detection. -/
theorem claim_C8_thm (c : RStr) :
    (dup_summary c = to_summary c ∧ search_item_summary c = to_summary c) ∧
    (byteLen c ≤ 100 → to_summary c = some c) ∧
    (100 < byteLen c → ∀ s, to_summary c = some s →
      ∃ p, p <+: c ∧ byteLen p = 97 ∧ s = p ++ "...".toList) := by
  refine ⟨⟨rfl, rfl⟩, ?_, ?_⟩
  · intro h
    unfold to_summary
    rw [if_neg (by omega)]
  · intro h s hs
    unfold to_summary at hs
    rw [if_pos (by omega)] at hs
    rcases Option.map_eq_some'.mp hs with ⟨p, hp, rfl⟩
    rcases byteTake_some c 97 p hp with ⟨h1, h2⟩
    exact ⟨p, h1, h2, rfl⟩

/-- C9 counterexample: the claim fails as stated.  The stats WHERE clause is
assembled by string interpolation of the caller path, so a path containing a
single quote makes the query malformed for the interpolating scope modes
(project and both): stats surfaces a storage error instead of the counts,
while the non-interpolating global mode still answers. -/
theorem claim_C9_cex :
    Cmd.get_stats [] .project (some ("/o".toList ++ Db.sqlQuote :: "brien".toList)) =
      none ∧
    Cmd.get_stats [] .both (some ("/o".toList ++ Db.sqlQuote :: "brien".toList)) =
      none ∧
    Cmd.get_stats [] .global (some ("/o".toList ++ Db.sqlQuote :: "brien".toList)) =
      some { total := 0,
             byType := { convention := 0, architecture := 0, gotcha := 0,
                         api := 0, learning := 0, preference := 0 },
             byConfidence := { high := 0, medium := 0, low := 0 },
             byScope := { project := 0, global := 0 } } := by
  refine ⟨?_, ?_, ?_⟩ <;> decide

/-- C9 (amended): for every scope filter given a caller path free of single
quotes (so the interpolated WHERE clause is well formed), stats returns the
total count and the per-type, per-confidence and per-scope counts (zero
filled) computed over the same scope-filter semantics as search; the
operation is a pure read. -/
theorem claim_C9_thm (store : List Memory) (tier : Tier) (p : RStr)
    (hq : ¬ p.contains Db.sqlQuote = true) :
    (∀ m, Db.statsWhere (Cmd.tier_to_scope_filter tier).1 (some p)
        (Cmd.tier_to_scope_filter tier).2 m =
      Db.scopeOnlyPred (Cmd.tier_to_scope_filter tier).1 (some p)
        (Cmd.tier_to_scope_filter tier).2 m) ∧
    Cmd.get_stats store tier (some p) =
      some { total := store.countP (fun m =>
               Db.scopeOnlyPred (Cmd.tier_to_scope_filter tier).1 (some p)
                 (Cmd.tier_to_scope_filter tier).2 m),
             byType :=
               { convention := store.countP (fun m =>
                   Db.scopeOnlyPred (Cmd.tier_to_scope_filter tier).1 (some p)
                     (Cmd.tier_to_scope_filter tier).2 m &&
                   decide (m.memoryType = .convention)),
                 architecture := store.countP (fun m =>
                   Db.scopeOnlyPred (Cmd.tier_to_scope_filter tier).1 (some p)
                     (Cmd.tier_to_scope_filter tier).2 m &&
                   decide (m.memoryType = .architecture)),
                 gotcha := store.countP (fun m =>
                   Db.scopeOnlyPred (Cmd.tier_to_scope_filter tier).1 (some p)
                     (Cmd.tier_to_scope_filter tier).2 m &&
                   decide (m.memoryType = .gotcha)),
                 api := store.countP (fun m =>
                   Db.scopeOnlyPred (Cmd.tier_to_scope_filter tier).1 (some p)
                     (Cmd.tier_to_scope_filter tier).2 m &&
                   decide (m.memoryType = .api)),
                 learning := store.countP (fun m =>
                   Db.scopeOnlyPred (Cmd.tier_to_scope_filter tier).1 (some p)
                     (Cmd.tier_to_scope_filter tier).2 m &&
                   decide (m.memoryType = .learning)),
                 preference := store.countP (fun m =>
                   Db.scopeOnlyPred (Cmd.tier_to_scope_filter tier).1 (some p)
                     (Cmd.tier_to_scope_filter tier).2 m &&
                   decide (m.memoryType = .preference)) },
             byConfidence :=
               { high := store.countP (fun m =>
                   Db.scopeOnlyPred (Cmd.tier_to_scope_filter tier).1 (some p)
                     (Cmd.tier_to_scope_filter tier).2 m &&
                   decide (m.confidence = .high)),
                 medium := store.countP (fun m =>
                   Db.scopeOnlyPred (Cmd.tier_to_scope_filter tier).1 (some p)
                     (Cmd.tier_to_scope_filter tier).2 m &&
                   decide (m.confidence = .medium)),
                 low := store.countP (fun m =>
                   Db.scopeOnlyPred (Cmd.tier_to_scope_filter tier).1 (some p)
                     (Cmd.tier_to_scope_filter tier).2 m &&
                   decide (m.confidence = .low)) },
             byScope :=
               { project := store.countP (fun m =>
                   Db.scopeOnlyPred (Cmd.tier_to_scope_filter tier).1 (some p)
                     (Cmd.tier_to_scope_filter tier).2 m &&
                   decide (m.scope = .project)),
                 global := store.countP (fun m =>
                   Db.scopeOnlyPred (Cmd.tier_to_scope_filter tier).1 (some p)
                     (Cmd.tier_to_scope_filter tier).2 m &&
                   decide (m.scope = .global)) } } := by
  have hw : ∀ m, Db.statsWhere (Cmd.tier_to_scope_filter tier).1 (some p)
      (Cmd.tier_to_scope_filter tier).2 m =
      Db.scopeOnlyPred (Cmd.tier_to_scope_filter tier).1 (some p)
        (Cmd.tier_to_scope_filter tier).2 m := by
    intro m
    cases tier <;>
      simp [Db.statsWhere, Db.scopeOnlyPred, Db.scopePredBoth,
        Cmd.tier_to_scope_filter]
  refine ⟨hw, ?_⟩
  have hb : p.contains Db.sqlQuote = false := by
    cases hcb : p.contains Db.sqlQuote
    · rfl
    · exact absurd hcb hq
  show Db.get_stats store (Cmd.tier_to_scope_filter tier).1 (some p)
    (Cmd.tier_to_scope_filter tier).2 = _
  simp only [Db.get_stats, Option.getD_some, hb, Bool.and_false,
    Bool.false_eq_true, if_false]
  refine congrArg some ?_
  congr 1
  · rw [List.countP_eq_length_filter]
    exact congrArg List.length (List.filter_congr (fun m _ => hw m))
  · congr 1 <;> exact stats_count_eq store _ _ hw _
  · congr 1 <;> exact stats_count_eq store _ _ hw _
  · congr 1 <;> exact stats_count_eq store _ _ hw _

/-- C9 witness: the amended claim instantiated at the empty store, project
tier, and the quote-free caller path "/p". -/
theorem claim_C9_wit :
    (¬ "/p".toList.contains Db.sqlQuote = true) ∧
    ((∀ m, Db.statsWhere (Cmd.tier_to_scope_filter .project).1 (some "/p".toList)
        (Cmd.tier_to_scope_filter .project).2 m =
      Db.scopeOnlyPred (Cmd.tier_to_scope_filter .project).1 (some "/p".toList)
        (Cmd.tier_to_scope_filter .project).2 m) ∧
    Cmd.get_stats [] .project (some "/p".toList) =
      some { total := ([] : List Memory).countP (fun m =>
               Db.scopeOnlyPred (Cmd.tier_to_scope_filter .project).1
                 (some "/p".toList) (Cmd.tier_to_scope_filter .project).2 m),
             byType :=
               { convention := ([] : List Memory).countP (fun m =>
                   Db.scopeOnlyPred (Cmd.tier_to_scope_filter .project).1
                     (some "/p".toList) (Cmd.tier_to_scope_filter .project).2 m &&
                   decide (m.memoryType = .convention)),
                 architecture := ([] : List Memory).countP (fun m =>
                   Db.scopeOnlyPred (Cmd.tier_to_scope_filter .project).1
                     (some "/p".toList) (Cmd.tier_to_scope_filter .project).2 m &&
                   decide (m.memoryType = .architecture)),
                 gotcha := ([] : List Memory).countP (fun m =>
                   Db.scopeOnlyPred (Cmd.tier_to_scope_filter .project).1
                     (some "/p".toList) (Cmd.tier_to_scope_filter .project).2 m &&
                   decide (m.memoryType = .gotcha)),
                 api := ([] : List Memory).countP (fun m =>
                   Db.scopeOnlyPred (Cmd.tier_to_scope_filter .project).1
                     (some "/p".toList) (Cmd.tier_to_scope_filter .project).2 m &&
                   decide (m.memoryType = .api)),
                 learning := ([] : List Memory).countP (fun m =>
                   Db.scopeOnlyPred (Cmd.tier_to_scope_filter .project).1
                     (some "/p".toList) (Cmd.tier_to_scope_filter .project).2 m &&
                   decide (m.memoryType = .learning)),
                 preference := ([] : List Memory).countP (fun m =>
                   Db.scopeOnlyPred (Cmd.tier_to_scope_filter .project).1
                     (some "/p".toList) (Cmd.tier_to_scope_filter .project).2 m &&
                   decide (m.memoryType = .preference)) },
             byConfidence :=
               { high := ([] : List Memory).countP (fun m =>
                   Db.scopeOnlyPred (Cmd.tier_to_scope_filter .project).1
                     (some "/p".toList) (Cmd.tier_to_scope_filter .project).2 m &&
                   decide (m.confidence = .high)),
                 medium := ([] : List Memory).countP (fun m =>
                   Db.scopeOnlyPred (Cmd.tier_to_scope_filter .project).1
                     (some "/p".toList) (Cmd.tier_to_scope_filter .project).2 m &&
                   decide (m.confidence = .medium)),
                 low := ([] : List Memory).countP (fun m =>
                   Db.scopeOnlyPred (Cmd.tier_to_scope_filter .project).1
                     (some "/p".toList) (Cmd.tier_to_scope_filter .project).2 m &&
                   decide (m.confidence = .low)) },
             byScope :=
               { project := ([] : List Memory).countP (fun m =>
                   Db.scopeOnlyPred (Cmd.tier_to_scope_filter .project).1
                     (some "/p".toList) (Cmd.tier_to_scope_filter .project).2 m &&
                   decide (m.scope = .project)),
                 global := ([] : List Memory).countP (fun m =>
                   Db.scopeOnlyPred (Cmd.tier_to_scope_filter .project).1
                     (some "/p".toList) (Cmd.tier_to_scope_filter .project).2 m &&
                   decide (m.scope = .global)) } }) :=
  ⟨by decide, claim_C9_thm [] .project "/p".toList (by decide)⟩

set_option maxRecDepth 8000 in
/-- C10: the claim is right and the code is wrong — the summary derivation is
not total.  On a 101-byte content whose byte 97 falls inside a multi-byte
character, all three derivation sites panic (modelled as `none`). -/
theorem claim_C10_thm :
    to_summary panicContent = none ∧ dup_summary panicContent = none ∧
    search_item_summary panicContent = none := by
  refine ⟨?_, ?_, ?_⟩ <;> decide

end Hippocampus
